import Mathlib

/-!
Shallow embedding of the `pre_ktas` LangGraph application
(`src/pre_ktas/...`): the graph state, the per-node patch functions, the
routing functions and the one-cycle executor.  Each node of the LangGraph
returns a partial state update (a dict); we model a dict patch as a
structure of `Option` fields (`none` = key absent) plus the `messages`
list, whose reducer (`add_messages`) appends instead of overwriting.
The classification oracle (the LLM behind `with_structured_output`) is an
external collaborator: every node function takes the structured response
of its single oracle call as an explicit argument.
-/

namespace PreKtas

/-- Evidence span: one (quote, interpretation) pair, as in the
`EvidenceSpan` pydantic models of `nodes/classify/stage*.py`. -/
structure EvidenceSpan where
  quote : String
  interpretation : String
deriving Repr, DecidableEq

/-- One entry of `classification_log`, as built by the classifier nodes
(`{stage, selection, confidence, evidence_spans, reason}`). -/
structure LogEntry where
  stage : Nat
  selection : String
  confidence : String
  evidence_spans : List EvidenceSpan
  reason : String
deriving Repr, DecidableEq

/-- Modelled from the spec: `nodes/data/ktas_candidates.py` is not part of
the sources; per spec section 6 the Taxonomy Lookup collaborator provides
`STAGE2_CANDIDATES` (the fixed top-level list), `get_stage3_candidates`,
`get_stage4_candidates` (child-candidate lookup, possibly empty) and
`get_ktas_level` (final severity for a selection triple, or unknown). -/
structure Taxonomy where
  STAGE2_CANDIDATES : List String
  get_stage3_candidates : String → List String
  get_stage4_candidates : String → List String
  get_ktas_level : String → String → String → Option Nat

/-- `GraphState` of `graph/state.py`.  `messages` keeps only the textual
content of each turn; nullable fields are `Option`. -/
structure GraphState where
  messages : List String
  user_input : String
  current_stage : Option Nat
  stage2_selection : Option String
  stage3_selection : Option String
  stage4_selection : Option String
  stage2_candidates : List String
  stage3_candidates : List String
  stage4_candidates : List String
  retriage_target : Option String
  retriage_action : Option String
  additional_questions : List String
  classification_log : List LogEntry
  final_ktas_level : Option Nat
deriving Repr, DecidableEq

/-- A partial state update as returned by one node: `none` = the key is
absent from the returned dict.  `messages` is governed by the
`add_messages` reducer, so the patch carries the list to append. -/
structure StatePatch where
  messages : List String := []
  user_input : Option String := none
  current_stage : Option (Option Nat) := none
  stage2_selection : Option (Option String) := none
  stage3_selection : Option (Option String) := none
  stage4_selection : Option (Option String) := none
  stage2_candidates : Option (List String) := none
  stage3_candidates : Option (List String) := none
  stage4_candidates : Option (List String) := none
  retriage_target : Option (Option String) := none
  retriage_action : Option (Option String) := none
  additional_questions : Option (List String) := none
  classification_log : Option (List LogEntry) := none
  final_ktas_level : Option (Option Nat) := none
deriving Repr, DecidableEq

/-- LangGraph channel merge of a node's partial update into the state:
plain channels are overwritten when the key is present, `messages` is
extended by the `add_messages` reducer. -/
def applyPatch (s : GraphState) (p : StatePatch) : GraphState where
  messages := s.messages ++ p.messages
  user_input := p.user_input.getD s.user_input
  current_stage := p.current_stage.getD s.current_stage
  stage2_selection := p.stage2_selection.getD s.stage2_selection
  stage3_selection := p.stage3_selection.getD s.stage3_selection
  stage4_selection := p.stage4_selection.getD s.stage4_selection
  stage2_candidates := p.stage2_candidates.getD s.stage2_candidates
  stage3_candidates := p.stage3_candidates.getD s.stage3_candidates
  stage4_candidates := p.stage4_candidates.getD s.stage4_candidates
  retriage_target := p.retriage_target.getD s.retriage_target
  retriage_action := p.retriage_action.getD s.retriage_action
  additional_questions := p.additional_questions.getD s.additional_questions
  classification_log := p.classification_log.getD s.classification_log
  final_ktas_level := p.final_ktas_level.getD s.final_ktas_level

/-! ### Structured oracle responses (the pydantic output schemas) -/

/-- `RetraigeStage2Decision` / `...Stage3...` / `...Stage4...`: the shared
shape `{action, questions, reason}` of the three retriage nodes' oracle
responses (source spells the class names "Retraige"). -/
structure RetraigeStageDecision where
  action : String
  questions : List String
  reason : String
deriving Repr, DecidableEq

/-- `Stage2Classification` of `nodes/classify/stage2.py` (the same shape
serves `Stage3Classification`). -/
structure Stage2Classification where
  selection : String
  confidence : String
  evidence_spans : List EvidenceSpan
  reason : String
deriving Repr, DecidableEq

/-- `Stage4Classification` of `nodes/classify/stage4.py`: additionally
carries optional follow-up `questions` for the low-confidence case. -/
structure Stage4Classification where
  selection : String
  confidence : String
  questions : List String
  evidence_spans : List EvidenceSpan
  reason : String
deriving Repr, DecidableEq

/-- The targets admitted by the `Literal["stage2", "stage3", "stage4"]`
annotation of `RetraigeDecision.target` in `nodes/retriage/judge.py`. -/
def judge_valid_targets : List String := ["stage2", "stage3", "stage4"]

/-- Pydantic validation of the judge oracle's `target` field: `none` in =
field omitted / unparsable; a value outside the `Literal` raises a
`ValidationError` inside `structured_llm.invoke`, i.e. no decision is
produced (`none` out). -/
def validate_judge_target (raw : Option String) : Option String :=
  match raw with
  | none => none
  | some t => if t ∈ judge_valid_targets then some t else none

/-! ### Node functions -/

/-- `retriage_judge_node` (`nodes/retriage/judge.py`): commits the
validated target and explicitly resets `retriage_action` to `None`. -/
def retriage_judge_node (target : String) : StatePatch :=
  { retriage_target := some (some target),
    retriage_action := some none }

/-- The deterministic fallback question pair of `retriage_stage2_node`. -/
def stage2_fallback_questions : List String :=
  ["주요 증상이 무엇인지 구체적으로 설명해 주세요.",
   "증상이 언제부터 시작되었나요?"]

/-- `retriage_stage2_node` (`nodes/retriage/stage2.py`). -/
def retriage_stage2_node (state : GraphState) (decision : RetraigeStageDecision) :
    StatePatch :=
  if decision.action = "추가 질문" then
    let questions :=
      if decision.questions.isEmpty then stage2_fallback_questions
      else decision.questions
    { retriage_action := some (some decision.action),
      additional_questions := some (state.additional_questions ++ questions) }
  else
    { retriage_action := some (some decision.action) }

/-- `retriage_stage3_node` (`nodes/retriage/stage3.py`): always refreshes
`stage3_candidates`; appends questions only when the oracle supplied a
non-empty list. -/
def retriage_stage3_node (tax : Taxonomy) (state : GraphState)
    (decision : RetraigeStageDecision) : StatePatch :=
  let candidates := tax.get_stage3_candidates (state.stage2_selection.getD "미분류")
  if decision.action = "추가 질문" ∧ ¬ decision.questions.isEmpty then
    { retriage_action := some (some decision.action),
      stage3_candidates := some candidates,
      additional_questions :=
        some (state.additional_questions ++ decision.questions) }
  else
    { retriage_action := some (some decision.action),
      stage3_candidates := some candidates }

/-- The deterministic fallback question pair of `retriage_stage4_node`. -/
def stage4_fallback_questions : List String :=
  ["현재 활력징후(혈압, 맥박, 체온, SpO2)를 알려주세요.",
   "증상의 중증도가 어느 정도인지 설명해 주세요."]

/-- `retriage_stage4_node` (`nodes/retriage/stage4.py`): always refreshes
`stage4_candidates`; on the ask branch substitutes the fallback pair when
the oracle's question list is empty. -/
def retriage_stage4_node (tax : Taxonomy) (state : GraphState)
    (decision : RetraigeStageDecision) : StatePatch :=
  let candidates := tax.get_stage4_candidates (state.stage3_selection.getD "미분류")
  if decision.action = "추가 질문" then
    let questions :=
      if decision.questions.isEmpty then stage4_fallback_questions
      else decision.questions
    { retriage_action := some (some decision.action),
      stage4_candidates := some candidates,
      additional_questions := some (state.additional_questions ++ questions) }
  else
    { retriage_action := some (some decision.action),
      stage4_candidates := some candidates }

/-- `stage2_classifier_node` (`nodes/classify/stage2.py`).  An empty (or
missing) `stage2_candidates` falls back to the static `STAGE2_CANDIDATES`
list (`state.get(...) or STAGE2_CANDIDATES`); there is no empty-candidate
short-circuit at this level.  `none` models the `IndexError` that
`candidates[0]` raises when even the fallback list is empty. -/
def stage2_classifier_node (tax : Taxonomy) (state : GraphState)
    (result : Stage2Classification) : Option StatePatch :=
  match (if state.stage2_candidates.isEmpty then tax.STAGE2_CANDIDATES
         else state.stage2_candidates) with
  | [] => none
  | c0 :: rest =>
    let cs := c0 :: rest
    let selection := if result.selection ∈ cs then result.selection else c0
    let stage3_candidates := tax.get_stage3_candidates selection
    let log_entry : LogEntry :=
      ⟨2, selection, result.confidence, result.evidence_spans, result.reason⟩
    some
      { stage2_selection := some (some selection),
        stage3_candidates := some stage3_candidates,
        current_stage := some (some 2),
        classification_log := some (state.classification_log ++ [log_entry]) }

/-- `stage3_classifier_node` (`nodes/classify/stage3.py`): empty
candidates short-circuit to `{stage3_selection: None, stage4_candidates: []}`
(note: no `current_stage` key in that branch). -/
def stage3_classifier_node (tax : Taxonomy) (state : GraphState)
    (result : Stage2Classification) : StatePatch :=
  match state.stage3_candidates with
  | [] =>
    { stage3_selection := some none,
      stage4_candidates := some [] }
  | c0 :: rest =>
    let cs := c0 :: rest
    let selection := if result.selection ∈ cs then result.selection else c0
    let stage4_candidates := tax.get_stage4_candidates selection
    let log_entry : LogEntry :=
      ⟨3, selection, result.confidence, result.evidence_spans, result.reason⟩
    { stage3_selection := some (some selection),
      stage4_candidates := some stage4_candidates,
      current_stage := some (some 3),
      classification_log := some (state.classification_log ++ [log_entry]) }

/-- `stage4_classifier_node` (`nodes/classify/stage4.py`): empty
candidates short-circuit; confidence `낮음` with non-empty questions takes
the no-classification early exit; otherwise the selection is committed
with a log entry and the final KTAS level lookup. -/
def stage4_classifier_node (tax : Taxonomy) (state : GraphState)
    (result : Stage4Classification) : StatePatch :=
  match state.stage4_candidates with
  | [] =>
    { stage4_selection := some none,
      current_stage := some (some 4) }
  | c0 :: rest =>
    if result.confidence = "낮음" ∧ ¬ result.questions.isEmpty then
      { retriage_action := some (some "추가 질문"),
        additional_questions :=
          some (state.additional_questions ++ result.questions),
        current_stage := some (some 4) }
    else
      let cs := c0 :: rest
      let selection := if result.selection ∈ cs then result.selection else c0
      let log_entry : LogEntry :=
        ⟨4, selection, result.confidence, result.evidence_spans, result.reason⟩
      let ktas_level :=
        tax.get_ktas_level (state.stage2_selection.getD "미분류")
          (state.stage3_selection.getD "미분류") selection
      { stage4_selection := some (some selection),
        current_stage := some (some 4),
        classification_log := some (state.classification_log ++ [log_entry]),
        final_ktas_level := some ktas_level }

/-- `_format_questions` (`nodes/ask/question.py`). -/
def format_questions (questions : List String) : String :=
  match questions with
  | [q] => "확인이 필요합니다: " ++ q
  | _ =>
    let lines :=
      "다음 사항을 확인해 주세요:" ::
        (questions.enum.map
          (fun p => "  " ++ toString (p.1 + 1) ++ ". " ++ p.2))
    String.intercalate "\n" lines

/-- `ask_question_node` (`nodes/ask/question.py`): empty question queue is
a pure no-op (`return {}`); otherwise one formatted AI message is appended
and the queue is cleared. -/
def ask_question_node (state : GraphState) : StatePatch :=
  if state.additional_questions.isEmpty then {}
  else
    { messages := [format_questions state.additional_questions],
      additional_questions := some [] }

/-! ### Routing (`graph/route.py`) -/

/-- `route_retriage_target`: the argument is the raw dict entry for
`retriage_target` — `none` = key absent (so `dict.get`'s `"stage4"`
default applies), `some none` = key present with `None` (f-string renders
`"None"`), `some (some t)` = a committed string target. -/
def route_retriage_target (entry : Option (Option String)) : String :=
  match entry with
  | none => "retriage_" ++ "stage4"
  | some none => "retriage_" ++ "None"
  | some (some t) => "retriage_" ++ t

/-- `route_retriage_stage2_action`: `추가 질문` routes to ask, anything
else (including `None`) defaults to the classifier. -/
def route_retriage_stage2_action (action : Option String) : String :=
  if action = some "추가 질문" then "ask_question" else "stage2_classifier"

/-- `route_retriage_stage3_action`. -/
def route_retriage_stage3_action (action : Option String) : String :=
  if action = some "추가 질문" then "ask_question" else "stage3_classifier"

/-- `route_retriage_stage4_action`. -/
def route_retriage_stage4_action (action : Option String) : String :=
  if action = some "추가 질문" then "ask_question" else "stage4_classifier"

/-- The static edge list of `build_graph` (`graph/build_graph.py`):
the unconditional cascade and terminal edges. -/
def graph_edges : List (String × String) :=
  [("stage2_classifier", "stage3_classifier"),
   ("stage3_classifier", "stage4_classifier"),
   ("stage4_classifier", "END"),
   ("ask_question", "END")]

/-! ### Cycle executor -/

/-- The seven structured oracle responses a single cycle can consume (each
node performs at most one oracle call).  `judge_target_raw` is the raw
`target` field of the judge response before pydantic validation. -/
structure OracleCycle where
  judge_target_raw : Option String
  retriage2 : RetraigeStageDecision
  retriage3 : RetraigeStageDecision
  retriage4 : RetraigeStageDecision
  classify2 : Stage2Classification
  classify3 : Stage2Classification
  classify4 : Stage4Classification

/-- One cycle of the compiled graph, as driven by `app.py`'s
`_run_graph` (`graph.stream({"user_input": ...})` on the checkpointed
state): judge, conditional routing to one retriage node, then either the
ask node or the classifier cascade falling through to stage 4.  `none`
models an uncaught exception (pydantic validation failure or
`IndexError`), after which the checkpoint keeps the prior state. -/
def runCycle (tax : Taxonomy) (o : OracleCycle) (s0 : GraphState)
    (input : String) : Option GraphState :=
  let s1 := { s0 with user_input := input }
  match validate_judge_target o.judge_target_raw with
  | none => none
  | some target =>
    let s2 := applyPatch s1 (retriage_judge_node target)
    let next := route_retriage_target (some s2.retriage_target)
    if next = "retriage_stage2" then
      let s3 := applyPatch s2 (retriage_stage2_node s2 o.retriage2)
      if route_retriage_stage2_action s3.retriage_action = "ask_question" then
        some (applyPatch s3 (ask_question_node s3))
      else
        match stage2_classifier_node tax s3 o.classify2 with
        | none => none
        | some p2 =>
          let s4 := applyPatch s3 p2
          let s5 := applyPatch s4 (stage3_classifier_node tax s4 o.classify3)
          some (applyPatch s5 (stage4_classifier_node tax s5 o.classify4))
    else if next = "retriage_stage3" then
      let s3 := applyPatch s2 (retriage_stage3_node tax s2 o.retriage3)
      if route_retriage_stage3_action s3.retriage_action = "ask_question" then
        some (applyPatch s3 (ask_question_node s3))
      else
        let s4 := applyPatch s3 (stage3_classifier_node tax s3 o.classify3)
        some (applyPatch s4 (stage4_classifier_node tax s4 o.classify4))
    else if next = "retriage_stage4" then
      let s3 := applyPatch s2 (retriage_stage4_node tax s2 o.retriage4)
      if route_retriage_stage4_action s3.retriage_action = "ask_question" then
        some (applyPatch s3 (ask_question_node s3))
      else
        some (applyPatch s3 (stage4_classifier_node tax s3 o.classify4))
    else none

/-- The state the session store holds after a cycle: the cycle's result on
success, the untouched prior state when the cycle raised (the checkpoint
is only advanced by completed steps that were all executed). -/
def commitCycle (tax : Taxonomy) (o : OracleCycle) (s0 : GraphState)
    (input : String) : GraphState :=
  (runCycle tax o s0 input).getD s0

/-! ### Concrete fixtures for evaluating the model -/

/-- A small concrete taxonomy instance. -/
def taxFix : Taxonomy where
  STAGE2_CANDIDATES := ["심혈관계", "호흡기계"]
  get_stage3_candidates := fun s =>
    if s = "심혈관계" then ["가슴통증(심장성)"] else []
  get_stage4_candidates := fun s =>
    if s = "가슴통증(심장성)" then ["쇼크", "중등도"] else []
  get_ktas_level := fun _ _ s => if s = "쇼크" then some 1 else some 3

/-- A concrete session state with all three selections populated. -/
def stFix : GraphState where
  messages := []
  user_input := ""
  current_stage := some 4
  stage2_selection := some "심혈관계"
  stage3_selection := some "가슴통증(심장성)"
  stage4_selection := some "중등도"
  stage2_candidates := ["심혈관계", "호흡기계"]
  stage3_candidates := ["가슴통증(심장성)"]
  stage4_candidates := ["쇼크", "중등도"]
  retriage_target := some "stage2"
  retriage_action := some "재분류"
  additional_questions := []
  classification_log := []
  final_ktas_level := some 3

/-- `stFix` with an empty stage-2 candidate list. -/
def stEmpty2 : GraphState := { stFix with stage2_candidates := [] }

/-- `stFix` with an empty stage-3 candidate list. -/
def stEmpty3 : GraphState := { stFix with stage3_candidates := [] }

/-- `stFix` with all three candidate lists empty. -/
def stEmptyAll : GraphState :=
  { stFix with stage2_candidates := [], stage3_candidates := [],
               stage4_candidates := [] }

/-- `stFix` with one pending additional question. -/
def stAskFix : GraphState :=
  { stFix with additional_questions := ["통증 점수는 몇 점인가요?"] }

/-- A concrete stage-2/3 style classification response. -/
def r2Fix : Stage2Classification where
  selection := "호흡기계"
  confidence := "높음"
  evidence_spans := [⟨"숨이 차요", "호흡기계 직접 지시"⟩]
  reason := "호흡곤란 진술"

/-- A concrete stage-4 response with low confidence and one question. -/
def r4Fix : Stage4Classification where
  selection := ""
  confidence := "낮음"
  questions := ["통증 정도를 0-10 점으로 표현하면 몇 점인가요?"]
  evidence_spans := []
  reason := "임상 수치 부족"

/-- A concrete retriage decision choosing the classify branch. -/
def dClassifyFix : RetraigeStageDecision where
  action := "재분류"
  questions := []
  reason := "정보 충분"

/-- A concrete ask-branch retriage decision with an empty question list. -/
def dAskEmptyFix : RetraigeStageDecision where
  action := "추가 질문"
  questions := []
  reason := "정보 부족"

/-- An oracle bundle whose judge response omits the `target` field. -/
def oNoTargetFix : OracleCycle where
  judge_target_raw := none
  retriage2 := dClassifyFix
  retriage3 := dClassifyFix
  retriage4 := dClassifyFix
  classify2 := r2Fix
  classify3 := r2Fix
  classify4 := r4Fix

/-- An oracle bundle whose judge response has an out-of-`Literal` target. -/
def oBadTargetFix : OracleCycle where
  judge_target_raw := some "stage5"
  retriage2 := dClassifyFix
  retriage3 := dClassifyFix
  retriage4 := dClassifyFix
  classify2 := r2Fix
  classify3 := r2Fix
  classify4 := r4Fix

/-- An oracle bundle driving the stage-4 low-confidence early exit. -/
def oEarlyExitFix : OracleCycle where
  judge_target_raw := some "stage4"
  retriage2 := dClassifyFix
  retriage3 := dClassifyFix
  retriage4 := dClassifyFix
  classify2 := r2Fix
  classify3 := r2Fix
  classify4 := r4Fix

end PreKtas

namespace PreKtas

/-! ### Per-node bookkeeping lemmas -/

theorem applyPatch_classification_log (s : GraphState) (p : StatePatch) :
    (applyPatch s p).classification_log =
      p.classification_log.getD s.classification_log := rfl

theorem retriage_judge_node_log (t : String) :
    (retriage_judge_node t).classification_log = none := rfl

theorem retriage_stage2_node_log (s : GraphState) (d : RetraigeStageDecision) :
    (retriage_stage2_node s d).classification_log = none := by
  unfold retriage_stage2_node
  split <;> rfl

theorem retriage_stage3_node_log (tax : Taxonomy) (s : GraphState)
    (d : RetraigeStageDecision) :
    (retriage_stage3_node tax s d).classification_log = none := by
  unfold retriage_stage3_node
  split <;> rfl

theorem retriage_stage4_node_log (tax : Taxonomy) (s : GraphState)
    (d : RetraigeStageDecision) :
    (retriage_stage4_node tax s d).classification_log = none := by
  unfold retriage_stage4_node
  split <;> rfl

theorem ask_question_node_log (s : GraphState) :
    (ask_question_node s).classification_log = none := by
  unfold ask_question_node
  split <;> rfl

theorem retriage_stage2_node_action (s : GraphState)
    (d : RetraigeStageDecision) :
    (retriage_stage2_node s d).retriage_action = some (some d.action) := by
  unfold retriage_stage2_node
  split <;> rfl

theorem retriage_stage3_node_action (tax : Taxonomy) (s : GraphState)
    (d : RetraigeStageDecision) :
    (retriage_stage3_node tax s d).retriage_action = some (some d.action) := by
  unfold retriage_stage3_node
  split <;> rfl

theorem retriage_stage4_node_action (tax : Taxonomy) (s : GraphState)
    (d : RetraigeStageDecision) :
    (retriage_stage4_node tax s d).retriage_action = some (some d.action) := by
  unfold retriage_stage4_node
  split <;> rfl

theorem stage2_classifier_log_extends (tax : Taxonomy) (s : GraphState)
    (r : Stage2Classification) (p : StatePatch)
    (h : stage2_classifier_node tax s r = some p) :
    s.classification_log <+: (applyPatch s p).classification_log := by
  unfold stage2_classifier_node at h
  split at h
  · simp at h
  · rw [Option.some.injEq] at h
    subst h
    exact ⟨_, rfl⟩

theorem stage3_classifier_log_extends (tax : Taxonomy) (s : GraphState)
    (r : Stage2Classification) :
    s.classification_log <+:
      (applyPatch s (stage3_classifier_node tax s r)).classification_log := by
  unfold stage3_classifier_node
  split
  · exact List.prefix_refl _
  · exact ⟨_, rfl⟩

theorem stage4_classifier_log_extends (tax : Taxonomy) (s : GraphState)
    (r : Stage4Classification) :
    s.classification_log <+:
      (applyPatch s (stage4_classifier_node tax s r)).classification_log := by
  unfold stage4_classifier_node
  split
  · exact List.prefix_refl _
  · split
    · exact List.prefix_refl _
    · exact ⟨_, rfl⟩

theorem applyPatch_judge_log (s : GraphState) (t : String) :
    (applyPatch s (retriage_judge_node t)).classification_log =
      s.classification_log := rfl

theorem applyPatch_retriage2_log (s s' : GraphState)
    (d : RetraigeStageDecision) :
    (applyPatch s (retriage_stage2_node s' d)).classification_log =
      s.classification_log := by
  rw [applyPatch_classification_log, retriage_stage2_node_log]
  rfl

theorem applyPatch_retriage3_log (tax : Taxonomy) (s s' : GraphState)
    (d : RetraigeStageDecision) :
    (applyPatch s (retriage_stage3_node tax s' d)).classification_log =
      s.classification_log := by
  rw [applyPatch_classification_log, retriage_stage3_node_log]
  rfl

theorem applyPatch_retriage4_log (tax : Taxonomy) (s s' : GraphState)
    (d : RetraigeStageDecision) :
    (applyPatch s (retriage_stage4_node tax s' d)).classification_log =
      s.classification_log := by
  rw [applyPatch_classification_log, retriage_stage4_node_log]
  rfl

theorem applyPatch_ask_log (s s' : GraphState) :
    (applyPatch s (ask_question_node s')).classification_log =
      s.classification_log := by
  rw [applyPatch_classification_log, ask_question_node_log]
  rfl

/-! ### Patch-shape lemmas -/

theorem stage2_classifier_node_nil (tax : Taxonomy) (s : GraphState)
    (r : Stage2Classification)
    (h : (if s.stage2_candidates.isEmpty then tax.STAGE2_CANDIDATES
          else s.stage2_candidates) = ([] : List String)) :
    stage2_classifier_node tax s r = none := by
  unfold stage2_classifier_node
  rw [h]

theorem stage2_classifier_node_cons (tax : Taxonomy) (s : GraphState)
    (r : Stage2Classification) (c0 : String) (rest : List String)
    (h : (if s.stage2_candidates.isEmpty then tax.STAGE2_CANDIDATES
          else s.stage2_candidates) = c0 :: rest) :
    stage2_classifier_node tax s r =
      some
        { stage2_selection :=
            some (some (if r.selection ∈ c0 :: rest then r.selection else c0)),
          stage3_candidates :=
            some (tax.get_stage3_candidates
              (if r.selection ∈ c0 :: rest then r.selection else c0)),
          current_stage := some (some 2),
          classification_log :=
            some (s.classification_log ++
              [⟨2, if r.selection ∈ c0 :: rest then r.selection else c0,
                r.confidence, r.evidence_spans, r.reason⟩]) } := by
  unfold stage2_classifier_node
  rw [h]

theorem stage3_classifier_node_nil (tax : Taxonomy) (s : GraphState)
    (r : Stage2Classification) (h : s.stage3_candidates = []) :
    stage3_classifier_node tax s r =
      { stage3_selection := some none, stage4_candidates := some [] } := by
  unfold stage3_classifier_node
  rw [h]

theorem stage3_classifier_node_cons (tax : Taxonomy) (s : GraphState)
    (r : Stage2Classification) (c0 : String) (rest : List String)
    (h : s.stage3_candidates = c0 :: rest) :
    stage3_classifier_node tax s r =
      { stage3_selection :=
          some (some (if r.selection ∈ c0 :: rest then r.selection else c0)),
        stage4_candidates :=
          some (tax.get_stage4_candidates
            (if r.selection ∈ c0 :: rest then r.selection else c0)),
        current_stage := some (some 3),
        classification_log :=
          some (s.classification_log ++
            [⟨3, if r.selection ∈ c0 :: rest then r.selection else c0,
              r.confidence, r.evidence_spans, r.reason⟩]) } := by
  unfold stage3_classifier_node
  rw [h]

theorem stage4_classifier_node_nil (tax : Taxonomy) (s : GraphState)
    (r : Stage4Classification) (h : s.stage4_candidates = []) :
    stage4_classifier_node tax s r =
      { stage4_selection := some none, current_stage := some (some 4) } := by
  unfold stage4_classifier_node
  rw [h]

theorem stage4_classifier_node_ask (tax : Taxonomy) (s : GraphState)
    (r : Stage4Classification) (c0 : String) (rest : List String)
    (h : s.stage4_candidates = c0 :: rest)
    (hlow : r.confidence = "낮음") (hq : ¬r.questions.isEmpty) :
    stage4_classifier_node tax s r =
      { retriage_action := some (some "추가 질문"),
        additional_questions := some (s.additional_questions ++ r.questions),
        current_stage := some (some 4) } := by
  unfold stage4_classifier_node
  rw [h]
  dsimp only
  rw [if_pos ⟨hlow, hq⟩]

theorem stage4_classifier_node_classify (tax : Taxonomy) (s : GraphState)
    (r : Stage4Classification) (c0 : String) (rest : List String)
    (h : s.stage4_candidates = c0 :: rest)
    (hn : ¬(r.confidence = "낮음" ∧ ¬r.questions.isEmpty)) :
    stage4_classifier_node tax s r =
      { stage4_selection :=
          some (some (if r.selection ∈ c0 :: rest then r.selection else c0)),
        current_stage := some (some 4),
        classification_log :=
          some (s.classification_log ++
            [⟨4, if r.selection ∈ c0 :: rest then r.selection else c0,
              r.confidence, r.evidence_spans, r.reason⟩]),
        final_ktas_level :=
          some (tax.get_ktas_level (s.stage2_selection.getD "미분류")
            (s.stage3_selection.getD "미분류")
            (if r.selection ∈ c0 :: rest then r.selection else c0)) } := by
  unfold stage4_classifier_node
  rw [h]
  dsimp only
  rw [if_neg hn]

theorem retriage_stage4_node_cands (tax : Taxonomy) (s : GraphState)
    (d : RetraigeStageDecision) :
    (retriage_stage4_node tax s d).stage4_candidates =
      some (tax.get_stage4_candidates (s.stage3_selection.getD "미분류")) := by
  unfold retriage_stage4_node
  split <;> rfl

theorem retriage_stage4_node_no_questions (tax : Taxonomy) (s : GraphState)
    (d : RetraigeStageDecision) (h : d.action ≠ "추가 질문") :
    (retriage_stage4_node tax s d).additional_questions = none := by
  unfold retriage_stage4_node
  rw [if_neg h]

theorem retriage_stage4_node_messages (tax : Taxonomy) (s : GraphState)
    (d : RetraigeStageDecision) :
    (retriage_stage4_node tax s d).messages = [] := by
  unfold retriage_stage4_node
  split <;> rfl

theorem route_stage4_action_not_ask (a : Option String)
    (h : a ≠ some "추가 질문") :
    route_retriage_stage4_action a = "stage4_classifier" := by
  unfold route_retriage_stage4_action
  rw [if_neg h]

/-- With a validated `stage4` judge target and a non-ask stage-4 retriage
decision, one cycle is exactly: judge patch, stage-4 retriage patch, then
the stage-4 classifier patch. -/
theorem runCycle_stage4_classify (tax : Taxonomy) (o : OracleCycle)
    (s : GraphState) (input : String)
    (hv : validate_judge_target o.judge_target_raw = some "stage4")
    (ha : o.retriage4.action ≠ "추가 질문") :
    runCycle tax o s input =
      some (applyPatch
        (applyPatch (applyPatch { s with user_input := input }
            (retriage_judge_node "stage4"))
          (retriage_stage4_node tax
            (applyPatch { s with user_input := input }
              (retriage_judge_node "stage4")) o.retriage4))
        (stage4_classifier_node tax
          (applyPatch (applyPatch { s with user_input := input }
              (retriage_judge_node "stage4"))
            (retriage_stage4_node tax
              (applyPatch { s with user_input := input }
                (retriage_judge_node "stage4")) o.retriage4))
          o.classify4)) := by
  have hact : (applyPatch (applyPatch { s with user_input := input }
        (retriage_judge_node "stage4"))
      (retriage_stage4_node tax
        (applyPatch { s with user_input := input }
          (retriage_judge_node "stage4")) o.retriage4)).retriage_action =
      some o.retriage4.action := by
    simp only [applyPatch, retriage_stage4_node_action, Option.getD_some]
  unfold runCycle
  rw [hv]
  dsimp only
  rw [show route_retriage_target (some
      (applyPatch { s with user_input := input }
        (retriage_judge_node "stage4")).retriage_target) = "retriage_stage4"
    from rfl]
  rw [if_neg (by decide), if_neg (by decide), if_pos rfl]
  rw [if_neg (by rw [hact, route_stage4_action_not_ask
    (some o.retriage4.action) (by simpa using ha)]; decide)]

/-! ### Claim theorems -/

/-- C1: the deepest-level (stage-4) classifier, invoked with a non-empty
candidate list, on an oracle result with confidence `낮음` and a non-empty
question list, commits exactly the patch `{retriage_action: 추가 질문,
additional_questions: existing ++ questions, current_stage: 4}` — no new
`classification_log` entry, and `stage4_selection` / `final_ktas_level`
keep their previous values. -/
theorem stage4_low_confidence_early_exit (tax : Taxonomy) (s : GraphState)
    (r : Stage4Classification) (hc : s.stage4_candidates ≠ [])
    (hlow : r.confidence = "낮음") (hq : r.questions ≠ []) :
    stage4_classifier_node tax s r =
      { retriage_action := some (some "추가 질문"),
        additional_questions := some (s.additional_questions ++ r.questions),
        current_stage := some (some 4) } ∧
    (applyPatch s (stage4_classifier_node tax s r)).classification_log =
      s.classification_log ∧
    (applyPatch s (stage4_classifier_node tax s r)).stage4_selection =
      s.stage4_selection ∧
    (applyPatch s (stage4_classifier_node tax s r)).final_ktas_level =
      s.final_ktas_level ∧
    (applyPatch s (stage4_classifier_node tax s r)).additional_questions =
      s.additional_questions ++ r.questions := by
  obtain ⟨c0, rest, hcs⟩ : ∃ c0 rest, s.stage4_candidates = c0 :: rest := by
    cases h : s.stage4_candidates with
    | nil => exact absurd h hc
    | cons a l => exact ⟨a, l, rfl⟩
  have hpatch : stage4_classifier_node tax s r =
      { retriage_action := some (some "추가 질문"),
        additional_questions := some (s.additional_questions ++ r.questions),
        current_stage := some (some 4) } := by
    unfold stage4_classifier_node
    rw [hcs]
    simp only [List.isEmpty_eq_true]
    rw [if_pos ⟨hlow, hq⟩]
  refine ⟨hpatch, ?_, ?_, ?_, ?_⟩ <;> rw [hpatch] <;> rfl

/-- C1 witness: the early exit evaluated on the concrete fixture. -/
theorem stage4_low_confidence_early_exit_witness :
    stFix.stage4_candidates ≠ [] ∧ r4Fix.confidence = "낮음" ∧
    r4Fix.questions ≠ [] ∧
    (applyPatch stFix (stage4_classifier_node taxFix stFix r4Fix)).classification_log
      = stFix.classification_log ∧
    (applyPatch stFix (stage4_classifier_node taxFix stFix r4Fix)).additional_questions
      = stFix.additional_questions ++ r4Fix.questions :=
  ⟨by decide, rfl, by decide,
    (stage4_low_confidence_early_exit taxFix stFix r4Fix (by decide) rfl
      (by decide)).2.1,
    (stage4_low_confidence_early_exit taxFix stFix r4Fix (by decide) rfl
      (by decide)).2.2.2.2⟩

/-- C2: the judge's committed patch always resets `retriage_action` to
`None`, for every prior state; consequently the branch taken after a
level-retriage node this cycle is determined by this cycle's retriage
decision alone, never by the previous cycle's `retriage_action`. -/
theorem judge_stale_action_guard (tax : Taxonomy) (s : GraphState)
    (target : String) (d : RetraigeStageDecision) :
    (retriage_judge_node target).retriage_action = some none ∧
    (applyPatch s (retriage_judge_node target)).retriage_action = none ∧
    (route_retriage_stage2_action
        (applyPatch (applyPatch s (retriage_judge_node target))
          (retriage_stage2_node
            (applyPatch s (retriage_judge_node target)) d)).retriage_action =
      if d.action = "추가 질문" then "ask_question" else "stage2_classifier") ∧
    (route_retriage_stage3_action
        (applyPatch (applyPatch s (retriage_judge_node target))
          (retriage_stage3_node tax
            (applyPatch s (retriage_judge_node target)) d)).retriage_action =
      if d.action = "추가 질문" then "ask_question" else "stage3_classifier") ∧
    (route_retriage_stage4_action
        (applyPatch (applyPatch s (retriage_judge_node target))
          (retriage_stage4_node tax
            (applyPatch s (retriage_judge_node target)) d)).retriage_action =
      if d.action = "추가 질문" then "ask_question" else "stage4_classifier") := by
  refine ⟨rfl, rfl, ?_, ?_, ?_⟩ <;>
    simp [route_retriage_stage2_action, route_retriage_stage3_action,
      route_retriage_stage4_action, applyPatch, retriage_stage2_node_action,
      retriage_stage3_node_action, retriage_stage4_node_action]

/-- C10: the stage-3 and stage-4 retriage nodes refresh their own
candidate list from the taxonomy lookup of the parent selection on
*every* execution (ask branch included), while the stage-2 retriage node
writes no candidate field at all. -/
theorem retriage_refreshes_candidates (tax : Taxonomy) (s : GraphState)
    (d : RetraigeStageDecision) :
    (retriage_stage3_node tax s d).stage3_candidates =
      some (tax.get_stage3_candidates (s.stage2_selection.getD "미분류")) ∧
    (retriage_stage4_node tax s d).stage4_candidates =
      some (tax.get_stage4_candidates (s.stage3_selection.getD "미분류")) ∧
    (retriage_stage2_node s d).stage2_candidates = none ∧
    (retriage_stage2_node s d).stage3_candidates = none ∧
    (retriage_stage2_node s d).stage4_candidates = none := by
  unfold retriage_stage2_node retriage_stage3_node retriage_stage4_node
  refine ⟨?_, ?_, ?_, ?_, ?_⟩ <;> split <;> rfl

/-- C3 counterexample: with an empty stage-2 candidate list the stage-2
classifier does *not* short-circuit — it substitutes the static
`STAGE2_CANDIDATES` list, consumes the oracle result (two different
responses give two different patches) and commits a non-null selection
together with a new log entry; and the stage-3 empty-candidate branch does
*not* advance `current_stage` (no `current_stage` key in its patch). -/
theorem empty_candidate_shortcircuit_cex :
    ((stage2_classifier_node taxFix stEmpty2 r2Fix).getD {}).stage2_selection =
      some (some "호흡기계") ∧
    ((stage2_classifier_node taxFix stEmpty2 r2Fix).getD {}).classification_log
      ≠ none ∧
    stage2_classifier_node taxFix stEmpty2 r2Fix ≠
      stage2_classifier_node taxFix stEmpty2
        { r2Fix with selection := "심혈관계" } ∧
    (stage3_classifier_node taxFix stEmpty3 r2Fix).current_stage = none := by
  refine ⟨rfl, by decide, by decide, rfl⟩

/-- C3 amended: the empty-candidate short-circuit exists only at levels 3
and 4.  With empty candidates the stage-3 classifier commits exactly
`{stage3_selection: None, stage4_candidates: []}` (oracle-independent, no
log entry, and no `current_stage` key), the stage-4 classifier commits
exactly `{stage4_selection: None, current_stage: 4}` (oracle-independent,
no log entry); after the stage-3 short-circuit the cascade's stage-4 step
sees an empty candidate list and short-circuits independently.  At level
2 an empty `stage2_candidates` list is replaced by the static
`STAGE2_CANDIDATES` and classification proceeds normally, appending a log
entry with an in-set selection. -/
theorem empty_candidate_shortcircuit_amended (tax : Taxonomy)
    (s : GraphState) (r2 r3 r3' : Stage2Classification)
    (r4 r4' : Stage4Classification) :
    (s.stage3_candidates = [] →
      stage3_classifier_node tax s r3 =
        { stage3_selection := some none, stage4_candidates := some [] } ∧
      stage3_classifier_node tax s r3 = stage3_classifier_node tax s r3') ∧
    (s.stage4_candidates = [] →
      stage4_classifier_node tax s r4 =
        { stage4_selection := some none, current_stage := some (some 4) } ∧
      stage4_classifier_node tax s r4 = stage4_classifier_node tax s r4') ∧
    (s.stage3_candidates = [] →
      (applyPatch s (stage3_classifier_node tax s r3)).stage4_candidates = [] ∧
      stage4_classifier_node tax
          (applyPatch s (stage3_classifier_node tax s r3)) r4 =
        { stage4_selection := some none, current_stage := some (some 4) }) ∧
    (s.stage2_candidates = [] → tax.STAGE2_CANDIDATES ≠ [] →
      ∃ e p, stage2_classifier_node tax s r2 = some p ∧
        p.classification_log = some (s.classification_log ++ [e]) ∧
        p.stage2_selection = some (some e.selection) ∧
        e.selection ∈ tax.STAGE2_CANDIDATES) := by
  have h3 : s.stage3_candidates = [] →
      stage3_classifier_node tax s r3 =
        { stage3_selection := some none, stage4_candidates := some [] } := by
    intro h
    unfold stage3_classifier_node
    rw [h]
  have h3' : s.stage3_candidates = [] →
      stage3_classifier_node tax s r3' =
        { stage3_selection := some none, stage4_candidates := some [] } := by
    intro h
    unfold stage3_classifier_node
    rw [h]
  have h4 : ∀ s' : GraphState, s'.stage4_candidates = [] →
      stage4_classifier_node tax s' r4 =
        { stage4_selection := some none, current_stage := some (some 4) } := by
    intro s' h
    unfold stage4_classifier_node
    rw [h]
  have h4' : s.stage4_candidates = [] →
      stage4_classifier_node tax s r4' =
        { stage4_selection := some none, current_stage := some (some 4) } := by
    intro h
    unfold stage4_classifier_node
    rw [h]
  refine ⟨fun h => ⟨h3 h, (h3 h).trans (h3' h).symm⟩,
          fun h => ⟨h4 s h, (h4 s h).trans (h4' h).symm⟩,
          fun h => ?_, fun h2 hne => ?_⟩
  · have hemp : (applyPatch s (stage3_classifier_node tax s r3)).stage4_candidates
        = [] := by
      rw [h3 h]
      rfl
    exact ⟨hemp, h4 _ hemp⟩
  · cases hl : tax.STAGE2_CANDIDATES with
    | nil => exact absurd hl hne
    | cons c0 rest =>
      have hnode := stage2_classifier_node_cons tax s r2 c0 rest
        (by rw [if_pos (by simp [h2])]; exact hl)
      refine ⟨⟨2, if r2.selection ∈ c0 :: rest then r2.selection else c0,
        r2.confidence, r2.evidence_spans, r2.reason⟩, _, hnode, rfl, rfl, ?_⟩
      show (if r2.selection ∈ c0 :: rest then r2.selection else c0) ∈ c0 :: rest
      split
      · assumption
      · exact List.mem_cons_self _ _

/-- C3 amended witness: all three levels evaluated at a concrete state
whose candidate lists are all empty. -/
theorem empty_candidate_shortcircuit_amended_witness :
    stage3_classifier_node taxFix stEmptyAll r2Fix =
      { stage3_selection := some none, stage4_candidates := some [] } ∧
    stage4_classifier_node taxFix stEmptyAll r4Fix =
      { stage4_selection := some none, current_stage := some (some 4) } ∧
    stEmptyAll.stage3_candidates = [] ∧ stEmptyAll.stage4_candidates = [] :=
  ⟨((empty_candidate_shortcircuit_amended taxFix stEmptyAll r2Fix r2Fix r2Fix
      r4Fix r4Fix).1 rfl).1,
   ((empty_candidate_shortcircuit_amended taxFix stEmptyAll r2Fix r2Fix r2Fix
      r4Fix r4Fix).2.1 rfl).1,
   rfl, rfl⟩

/-- C4 counterexample: when the judge oracle omits the `target` field (or
returns one outside the `Literal`), pydantic validation fails, the whole
cycle aborts with no commit, and the session keeps its previous state —
whose `retriage_target` here is `stage2`, not the claimed `stage4`
default. -/
theorem default_target_cex :
    runCycle taxFix oNoTargetFix stFix "추가 정보" = none ∧
    commitCycle taxFix oNoTargetFix stFix "추가 정보" = stFix ∧
    commitCycle taxFix oBadTargetFix stFix "추가 정보" = stFix ∧
    (commitCycle taxFix oNoTargetFix stFix "추가 정보").retriage_target =
      some "stage2" ∧
    (some "stage2" : Option String) ≠ some "stage4" := by
  refine ⟨rfl, rfl, by decide, rfl, by decide⟩

/-- C4 amended: an omitted or out-of-`Literal` judge target fails
structured-output validation and aborts the cycle with no commit, leaving
the previously committed state (and its `retriage_target`) untouched; the
`stage4` default lives only in the router, applying when the state has no
`retriage_target` entry at all — a situation that cannot arise after the
judge node has run. -/
theorem default_target_amended (tax : Taxonomy) (o : OracleCycle)
    (s : GraphState) (input : String) (t : String) :
    (validate_judge_target o.judge_target_raw = none →
      runCycle tax o s input = none ∧ commitCycle tax o s input = s) ∧
    validate_judge_target none = none ∧
    (t ∉ judge_valid_targets → validate_judge_target (some t) = none) ∧
    route_retriage_target none = "retriage_" ++ "stage4" := by
  refine ⟨fun h => ?_, rfl, fun h => ?_, rfl⟩
  · have hrun : runCycle tax o s input = none := by
      unfold runCycle
      rw [h]
    exact ⟨hrun, by rw [commitCycle, hrun]; rfl⟩
  · simp [validate_judge_target, h]

/-- C4 amended witness: the abort evaluated on the concrete fixtures. -/
theorem default_target_amended_witness :
    runCycle taxFix oNoTargetFix stFix "입력" = none ∧
    commitCycle taxFix oNoTargetFix stFix "입력" = stFix ∧
    validate_judge_target (some "stage5") = none :=
  ⟨((default_target_amended taxFix oNoTargetFix stFix "입력" "stage5").1 rfl).1,
   ((default_target_amended taxFix oNoTargetFix stFix "입력" "stage5").1 rfl).2,
   (default_target_amended taxFix oNoTargetFix stFix "입력" "stage5").2.2.1
     (by decide)⟩

/-- C5: at each level, a non-empty active candidate list and an
out-of-set oracle selection yield the first candidate as the committed
selection (never an error), and every committed non-null selection is a
member of the candidate list that was active when it was chosen. -/
theorem fallback_selection (tax : Taxonomy) (s : GraphState)
    (r2 r3 : Stage2Classification) (r4 : Stage4Classification)
    (c2 c3 c4 : String) (t2 t3 t4 : List String) :
    ((if s.stage2_candidates.isEmpty then tax.STAGE2_CANDIDATES
      else s.stage2_candidates) = c2 :: t2 →
      r2.selection ∉ c2 :: t2 →
      ∃ p, stage2_classifier_node tax s r2 = some p ∧
        p.stage2_selection = some (some c2)) ∧
    (∀ p sel, stage2_classifier_node tax s r2 = some p →
      p.stage2_selection = some (some sel) →
      sel ∈ (if s.stage2_candidates.isEmpty then tax.STAGE2_CANDIDATES
             else s.stage2_candidates)) ∧
    (s.stage3_candidates = c3 :: t3 → r3.selection ∉ c3 :: t3 →
      (stage3_classifier_node tax s r3).stage3_selection = some (some c3)) ∧
    (∀ sel, (stage3_classifier_node tax s r3).stage3_selection =
        some (some sel) → sel ∈ s.stage3_candidates) ∧
    (s.stage4_candidates = c4 :: t4 → r4.selection ∉ c4 :: t4 →
      ¬(r4.confidence = "낮음" ∧ r4.questions ≠ []) →
      (stage4_classifier_node tax s r4).stage4_selection = some (some c4)) ∧
    (∀ sel, (stage4_classifier_node tax s r4).stage4_selection =
        some (some sel) → sel ∈ s.stage4_candidates) := by
  refine ⟨fun hcs hnot => ?_, fun p sel hp hsel => ?_,
          fun hcs hnot => ?_, fun sel hsel => ?_,
          fun hcs hnot hne => ?_, fun sel hsel => ?_⟩
  · refine ⟨_, stage2_classifier_node_cons tax s r2 c2 t2 hcs, ?_⟩
    simp [hnot]
  · cases hl : (if s.stage2_candidates.isEmpty then tax.STAGE2_CANDIDATES
        else s.stage2_candidates) with
    | nil =>
      rw [stage2_classifier_node_nil tax s r2 hl] at hp
      exact absurd hp (by simp)
    | cons c0 rest =>
      rw [stage2_classifier_node_cons tax s r2 c0 rest hl] at hp
      rw [Option.some.injEq] at hp
      subst hp
      simp only [Option.some.injEq] at hsel
      rw [← hsel]
      split
      · assumption
      · exact List.mem_cons_self _ _
  · rw [stage3_classifier_node_cons tax s r3 c3 t3 hcs]
    simp [hnot]
  · cases hl : s.stage3_candidates with
    | nil =>
      rw [stage3_classifier_node_nil tax s r3 hl] at hsel
      simp at hsel
    | cons c0 rest =>
      rw [stage3_classifier_node_cons tax s r3 c0 rest hl] at hsel
      simp only [Option.some.injEq] at hsel
      rw [← hsel]
      split
      · assumption
      · exact List.mem_cons_self _ _
  · rw [stage4_classifier_node_classify tax s r4 c4 t4 hcs (by simpa using hne)]
    simp [hnot]
  · cases hl : s.stage4_candidates with
    | nil =>
      rw [stage4_classifier_node_nil tax s r4 hl] at hsel
      simp at hsel
    | cons c0 rest =>
      by_cases hask : r4.confidence = "낮음" ∧ ¬r4.questions.isEmpty
      · rw [stage4_classifier_node_ask tax s r4 c0 rest hl hask.1 hask.2]
          at hsel
        simp at hsel
      · rw [stage4_classifier_node_classify tax s r4 c0 rest hl hask] at hsel
        simp only [Option.some.injEq] at hsel
        rw [← hsel]
        split
        · assumption
        · exact List.mem_cons_self _ _

/-- C5 witness: an out-of-set stage-3 selection falls back to the first
candidate on the concrete fixture. -/
theorem fallback_selection_witness :
    stFix.stage3_candidates = ["가슴통증(심장성)"] ∧
    r2Fix.selection ∉ ["가슴통증(심장성)"] ∧
    (stage3_classifier_node taxFix stFix r2Fix).stage3_selection =
      some (some "가슴통증(심장성)") :=
  ⟨rfl, by decide,
   (fallback_selection taxFix stFix r2Fix r2Fix r4Fix "심혈관계"
      "가슴통증(심장성)" "쇼크" [] [] ["중등도"]).2.2.1 rfl (by decide)⟩

/-- C6: on the ask branch with an empty oracle question list, the
stage-2 and stage-4 retriage nodes append their deterministic two-element
fallback pairs while the stage-3 node appends nothing; and on every
branch of every retriage node the pending-question queue is only ever
extended, never replaced. -/
theorem ask_branch_question_fallback (tax : Taxonomy) (s : GraphState)
    (d2 d3 d4 : RetraigeStageDecision) :
    (d2.action = "추가 질문" → d2.questions = [] →
      (retriage_stage2_node s d2).additional_questions =
        some (s.additional_questions ++ stage2_fallback_questions)) ∧
    (d4.action = "추가 질문" → d4.questions = [] →
      (retriage_stage4_node tax s d4).additional_questions =
        some (s.additional_questions ++ stage4_fallback_questions)) ∧
    (d3.action = "추가 질문" → d3.questions = [] →
      (retriage_stage3_node tax s d3).additional_questions = none) ∧
    stage2_fallback_questions.length = 2 ∧
    stage4_fallback_questions.length = 2 ∧
    (s.additional_questions <+:
      (applyPatch s (retriage_stage2_node s d2)).additional_questions) ∧
    (s.additional_questions <+:
      (applyPatch s (retriage_stage3_node tax s d3)).additional_questions) ∧
    (s.additional_questions <+:
      (applyPatch s (retriage_stage4_node tax s d4)).additional_questions) := by
  refine ⟨fun ha hq => ?_, fun ha hq => ?_, fun ha hq => ?_, rfl, rfl,
          ?_, ?_, ?_⟩
  · unfold retriage_stage2_node
    rw [if_pos ha]
    simp [hq]
  · unfold retriage_stage4_node
    rw [if_pos ha]
    simp [hq]
  · unfold retriage_stage3_node
    rw [if_neg (by simp [hq])]
  · unfold retriage_stage2_node
    split
    · exact ⟨_, rfl⟩
    · exact ⟨[], List.append_nil _⟩
  · unfold retriage_stage3_node
    split
    · exact ⟨_, rfl⟩
    · exact ⟨[], List.append_nil _⟩
  · unfold retriage_stage4_node
    split
    · exact ⟨_, rfl⟩
    · exact ⟨[], List.append_nil _⟩

/-- C6 witness: the stage-2 and stage-4 fallback pairs and the stage-3
no-append, evaluated at a concrete empty-question ask decision. -/
theorem ask_branch_question_fallback_witness :
    (retriage_stage2_node stFix dAskEmptyFix).additional_questions =
      some stage2_fallback_questions ∧
    (retriage_stage4_node taxFix stFix dAskEmptyFix).additional_questions =
      some stage4_fallback_questions ∧
    (retriage_stage3_node taxFix stFix dAskEmptyFix).additional_questions =
      none :=
  ⟨((ask_branch_question_fallback taxFix stFix dAskEmptyFix dAskEmptyFix
      dAskEmptyFix).1 rfl rfl).trans (by rfl),
   ((ask_branch_question_fallback taxFix stFix dAskEmptyFix dAskEmptyFix
      dAskEmptyFix).2.1 rfl rfl).trans (by rfl),
   (ask_branch_question_fallback taxFix stFix dAskEmptyFix dAskEmptyFix
      dAskEmptyFix).2.2.1 rfl rfl⟩

/-- C8: invoking Ask-Question on an empty queue returns the empty patch
and leaves the whole state (conversation included) unchanged; on a
non-empty queue it appends exactly one formatted message (singular
phrasing for one question, an enumerated list for several) and clears the
queue. -/
theorem ask_question_contract (s : GraphState) (q q1 q2 : String) :
    (s.additional_questions = [] →
      ask_question_node s = {} ∧ applyPatch s (ask_question_node s) = s) ∧
    (s.additional_questions ≠ [] →
      (applyPatch s (ask_question_node s)).messages =
        s.messages ++ [format_questions s.additional_questions] ∧
      (applyPatch s (ask_question_node s)).additional_questions = []) ∧
    format_questions [q] = "확인이 필요합니다: " ++ q ∧
    format_questions [q1, q2] =
      String.intercalate "\n"
        ["다음 사항을 확인해 주세요:", "  1. " ++ q1, "  2. " ++ q2] := by
  refine ⟨fun h => ?_, fun h => ?_, rfl, ?_⟩
  case refine_3 =>
    simp [format_questions, List.enum]
    rfl
  · have hnode : ask_question_node s = {} := by
      unfold ask_question_node
      rw [if_pos (by simp [h])]
    refine ⟨hnode, ?_⟩
    rw [hnode]
    cases s
    simp [applyPatch]
  · have hnode : ask_question_node s =
        { messages := [format_questions s.additional_questions],
          additional_questions := some [] } := by
      unfold ask_question_node
      rw [if_neg (by simp [h])]
    rw [hnode]
    exact ⟨rfl, rfl⟩

/-- C8 witness: the no-op on an empty queue and the clear on a one-element
queue, at concrete states. -/
theorem ask_question_contract_witness :
    stFix.additional_questions = [] ∧
    applyPatch stFix (ask_question_node stFix) = stFix ∧
    stAskFix.additional_questions ≠ [] ∧
    (applyPatch stAskFix (ask_question_node stAskFix)).additional_questions
      = [] :=
  ⟨rfl, ((ask_question_contract stFix "a" "b" "c").1 rfl).2, by decide,
   ((ask_question_contract stAskFix "a" "b" "c").2.1 (by decide)).2⟩

/-- C7: across one whole cycle — any oracle behaviour, any branch, abort
included — the previously committed `classification_log` is an unchanged
prefix of the newly committed one: entries are only ever appended at the
end, never removed, rewritten or reordered. -/
theorem audit_log_monotone (tax : Taxonomy) (o : OracleCycle)
    (s : GraphState) (input : String) :
    s.classification_log <+:
      (commitCycle tax o s input).classification_log := by
  unfold commitCycle runCycle
  cases hv : validate_judge_target o.judge_target_raw with
  | none => exact List.prefix_refl _
  | some target =>
    dsimp only
    split
    · split
      · rw [Option.getD_some, applyPatch_ask_log, applyPatch_retriage2_log,
          applyPatch_judge_log]
      · split
        · exact List.prefix_refl _
        · rename_i p2 hp2
          rw [Option.getD_some]
          refine List.IsPrefix.trans ?_
            (stage4_classifier_log_extends tax _ o.classify4)
          refine List.IsPrefix.trans ?_
            (stage3_classifier_log_extends tax _ o.classify3)
          refine List.IsPrefix.trans ?_
            (stage2_classifier_log_extends tax _ o.classify2 p2 hp2)
          rw [applyPatch_retriage2_log, applyPatch_judge_log]
    · split
      · split
        · rw [Option.getD_some, applyPatch_ask_log, applyPatch_retriage3_log,
            applyPatch_judge_log]
        · rw [Option.getD_some]
          refine List.IsPrefix.trans ?_
            (stage4_classifier_log_extends tax _ o.classify4)
          refine List.IsPrefix.trans ?_
            (stage3_classifier_log_extends tax _ o.classify3)
          rw [applyPatch_retriage3_log, applyPatch_judge_log]
      · split
        · split
          · rw [Option.getD_some, applyPatch_ask_log,
              applyPatch_retriage4_log, applyPatch_judge_log]
          · rw [Option.getD_some]
            refine List.IsPrefix.trans ?_
              (stage4_classifier_log_extends tax _ o.classify4)
            rw [applyPatch_retriage4_log, applyPatch_judge_log]
        · exact List.prefix_refl _

/-- C9: a cycle that reaches the stage-4 classifier (judge target
`stage4`, retriage decision `재분류`) and takes the low-confidence early
exit ends directly at `END` without visiting Ask-Question: the cycle
commits successfully, no message is appended to the conversation, and the
newly raised questions are left pending — `additional_questions` is
non-empty in the committed state instead of being formatted and cleared.
The only outgoing edge of the stage-4 classifier is the terminal one. -/
theorem early_exit_bypasses_ask (tax : Taxonomy) (o : OracleCycle)
    (s : GraphState) (input : String)
    (ht : o.judge_target_raw = some "stage4")
    (ha : o.retriage4.action = "재분류")
    (hc : tax.get_stage4_candidates (s.stage3_selection.getD "미분류") ≠ [])
    (hlow : o.classify4.confidence = "낮음")
    (hq : o.classify4.questions ≠ []) :
    (runCycle tax o s input).isSome = true ∧
    (commitCycle tax o s input).messages = s.messages ∧
    (commitCycle tax o s input).additional_questions =
      s.additional_questions ++ o.classify4.questions ∧
    (commitCycle tax o s input).additional_questions ≠ [] ∧
    ("stage4_classifier", "END") ∈ graph_edges := by
  have hv : validate_judge_target o.judge_target_raw = some "stage4" := by
    rw [ht]
    decide
  have ha' : o.retriage4.action ≠ "추가 질문" := by
    rw [ha]
    decide
  have hrun := runCycle_stage4_classify tax o s input hv ha'
  set s1 : GraphState := { s with user_input := input } with hs1
  set s2 : GraphState := applyPatch s1 (retriage_judge_node "stage4") with hs2
  set s3 : GraphState :=
    applyPatch s2 (retriage_stage4_node tax s2 o.retriage4) with hs3
  have hnq : ∀ su : GraphState,
      (retriage_stage4_node tax su o.retriage4).additional_questions = none :=
    fun su => retriage_stage4_node_no_questions tax su o.retriage4 ha'
  have hcand : s3.stage4_candidates =
      tax.get_stage4_candidates (s.stage3_selection.getD "미분류") := by
    rw [hs3, hs2, hs1]
    simp only [applyPatch, retriage_judge_node, retriage_stage4_node_cands,
      Option.getD_some, Option.getD_none]
  have haq3 : s3.additional_questions = s.additional_questions := by
    rw [hs3, hs2, hs1]
    simp only [applyPatch, retriage_judge_node, hnq, Option.getD_none]
  have hmsg3 : s3.messages = s.messages := by
    rw [hs3, hs2, hs1]
    simp only [applyPatch, retriage_judge_node, retriage_stage4_node_messages,
      List.append_nil]
  obtain ⟨c0, rest, hcs⟩ : ∃ c0 rest,
      tax.get_stage4_candidates (s.stage3_selection.getD "미분류") =
        c0 :: rest := by
    cases h : tax.get_stage4_candidates (s.stage3_selection.getD "미분류") with
    | nil => exact absurd h hc
    | cons a l => exact ⟨a, l, rfl⟩
  have hq' : ¬o.classify4.questions.isEmpty := by simp [hq]
  have hask := stage4_classifier_node_ask tax s3 o.classify4 c0 rest
    (hcand.trans hcs) hlow hq'
  have hfinal : commitCycle tax o s input =
      applyPatch s3 (stage4_classifier_node tax s3 o.classify4) := by
    rw [commitCycle, hrun]
    rfl
  refine ⟨by rw [hrun]; rfl, ?_, ?_, ?_, by decide⟩
  · rw [hfinal, hask]
    simp only [applyPatch, List.append_nil, hmsg3]
  · rw [hfinal, hask]
    simp only [applyPatch, Option.getD_some, haq3]
  · rw [hfinal, hask]
    simp only [applyPatch, Option.getD_some, haq3]
    simp [hq]

/-- C9 witness: the early-exit cycle evaluated end to end on the concrete
fixtures. -/
theorem early_exit_bypasses_ask_witness :
    (runCycle taxFix oEarlyExitFix stFix "통증 양상 추가 정보").isSome = true ∧
    (commitCycle taxFix oEarlyExitFix stFix "통증 양상 추가 정보").messages =
      stFix.messages ∧
    (commitCycle taxFix oEarlyExitFix stFix
        "통증 양상 추가 정보").additional_questions =
      stFix.additional_questions ++ oEarlyExitFix.classify4.questions :=
  ⟨(early_exit_bypasses_ask taxFix oEarlyExitFix stFix "통증 양상 추가 정보"
      rfl rfl (by decide) rfl (by decide)).1,
   (early_exit_bypasses_ask taxFix oEarlyExitFix stFix "통증 양상 추가 정보"
      rfl rfl (by decide) rfl (by decide)).2.1,
   (early_exit_bypasses_ask taxFix oEarlyExitFix stFix "통증 양상 추가 정보"
      rfl rfl (by decide) rfl (by decide)).2.2.1⟩

end PreKtas
